import Mathlib

/-!
Verification of the core of the Siglent function/arbitrary waveform generator
driver (`src/ivi/siglent/siglentFgenBase.py` and
`src/ivi/siglent/siglentSDG2000X.py`): the SCPI response decoder, the cached
option accessors, the output-mode switch protocol, dependent cache
invalidation, duty-cycle validation and burst configuration.

Python strings are modelled as `String` / `List Char`; Python floats as `ℚ`;
the heterogeneous per-attribute storage (`self.__dict__`) as a map from tag
string and channel index to a dynamic value type.  Python exceptions are
modelled by an error type threaded through an explicit state monad that also
records the transport interactions (`_ask` / `_write` calls).
-/

/-- The exceptions raised by the driver code.  `unexpectedResponse` embeds
`ivi.UnexpectedResponseException` (the spec's `ProtocolError`);
`valueNotSupported` embeds `ivi.ValueNotSupportedException`;
`invalidOptionValue` embeds `ivi.InvalidOptionValueException`; `valueError`,
`keyError` and `indexError` embed the plain Python errors of the same names
(e.g. a failed tuple unpacking raises `ValueError`). -/
inductive PyErr
  | unexpectedResponse
  | valueNotSupported
  | invalidOptionValue
  | valueError
  | keyError
  | indexError
  deriving DecidableEq

/-- A value stored in the decoded response dictionary: the `_CHAN` entry is a
Python int, all other entries are strings. -/
inductive PyVal
  | int (n : Int)
  | str (s : List Char)
  deriving DecidableEq

/-- The decoder's result dictionary, an insertion-ordered association list
modelling a Python `dict`. -/
abbrev ScpiDict := List (List Char × PyVal)

/-- `d[k] = v` on a Python dict: replace in place if the key exists,
append otherwise. -/
def dictInsert : ScpiDict → List Char → PyVal → ScpiDict
  | [], k, v => [(k, v)]
  | (k1, v1) :: rest, k, v =>
    if k1 = k then (k, v) :: rest else (k1, v1) :: dictInsert rest k v

/-- Dictionary lookup (first matching key; `dictInsert` keeps keys unique). -/
def dictGet : ScpiDict → List Char → Option PyVal
  | [], _ => none
  | (k1, v1) :: rest, k => if k1 = k then some v1 else dictGet rest k

/-- Python `s.split(sep)` on a single-character separator: splits at every
occurrence and keeps empty pieces (`"".split(sep) = ['']`). -/
def pySplit (sep : Char) : List Char → List (List Char)
  | [] => [[]]
  | c :: cs =>
    if c = sep then [] :: pySplit sep cs
    else
      match pySplit sep cs with
      | t :: ts => (c :: t) :: ts
      | [] => [[c]]

/-- Python `s.split(sep, maxsplit)` on a single-character separator: at most
`n` splits, the remainder (separators included) is kept as the last piece. -/
def pySplitMax (sep : Char) : Nat → List Char → List (List Char)
  | _, [] => [[]]
  | 0, l => [l]
  | n + 1, c :: cs =>
    if c = sep then [] :: pySplitMax sep n cs
    else
      match pySplitMax sep (n + 1) cs with
      | t :: ts => (c :: t) :: ts
      | [] => [[c]]

/-- `zip(parts[::2], parts[1::2])`: consecutive tokens paired in encounter
order; a trailing unpaired token is dropped. -/
def pairUp : List (List Char) → List (List Char × List Char)
  | k :: v :: rest => (k, v) :: pairUp rest
  | _ => []

/-- The value attached to the last occurrence of key `k` in a pair list. -/
def lookupLast : List (List Char × List Char) → List Char → Option (List Char)
  | [], _ => none
  | p :: rest, k =>
    match lookupLast rest k with
    | some v => some v
    | none => if p.1 = k then some p.2 else none

/-- The comma-separated payload tokens, with the command name prepended as an
implicit first token when the token count is odd
(`siglentFgenBase._parse_scpi_response_to_dict`, the `parts.insert` step). -/
def scpiParts (command data : List Char) : List (List Char) :=
  if (pySplit ',' data).length % 2 = 1 then command :: pySplit ',' data
  else pySplit ',' data

/-- The (key, value) pairs of the payload, in encounter order. -/
def scpiPairs (command data : List Char) : List (List Char × List Char) :=
  pairUp (scpiParts command data)

/-- Folds the payload pairs into the result dictionary
(`for pair in zip(parts[::2], parts[1::2]): result[pair[0]] = pair[1]`). -/
def mkOptions (init : ScpiDict) (command data : List Char) : ScpiDict :=
  (scpiPairs command data).foldl (fun d p => dictInsert d p.1 (PyVal.str p.2)) init

/-- Embeds `siglentFgenBase._parse_scpi_response_to_dict`:
`header, data = tuple(resp.split(' ', 2))` (a non-2-element split raises a
plain `ValueError` from tuple unpacking); a `':'`-containing header is split
into channel token and command, `C1` maps to 1, `C2` to 2, anything else
raises `ivi.UnexpectedResponseException`; the payload is split on commas,
made even by prepending the command name, and paired into the dictionary. -/
def parseScpiRespList (resp : List Char) : Except PyErr ScpiDict :=
  match pySplitMax ' ' 2 resp with
  | [header, data] =>
    if ':' ∈ header then
      match pySplit ':' header with
      | [channelStr, command] =>
        if channelStr = "C1".toList then
          Except.ok (mkOptions [("_CHAN".toList, PyVal.int 1),
                                ("_CMD".toList, PyVal.str command)] command data)
        else if channelStr = "C2".toList then
          Except.ok (mkOptions [("_CHAN".toList, PyVal.int 2),
                                ("_CMD".toList, PyVal.str command)] command data)
        else Except.error PyErr.unexpectedResponse
      | _ => Except.error PyErr.valueError
    else
      Except.ok (mkOptions [("_CMD".toList, PyVal.str header)] header data)
  | _ => Except.error PyErr.valueError

/-- String-level entry point of the decoder. -/
def parseScpiResponseToDict (resp : String) : Except PyErr ScpiDict :=
  parseScpiRespList resp.toList

/-- Embeds `siglentSDG2000X._parse_response_to_dict` (source lines 50-66):
the header is always split into `channel_str:command` and unpacked into two
names (a header without exactly one colon fails the tuple unpacking with
`ValueError`), and `channel_id = 2 if channel_str == 'C2' else 1` — every
token other than `C2`, known or not, maps to channel 1 with no error.  The
payload handling matches the base decoder; the meta keys are the lowercase
`_chan` / `_cmd`. -/
def sdg2000xParseRespList (resp : List Char) : Except PyErr ScpiDict :=
  match pySplitMax ' ' 2 resp with
  | [header, data] =>
    match pySplit ':' header with
    | [channelStr, command] =>
      Except.ok (mkOptions
        [("_chan".toList, PyVal.int (if channelStr = "C2".toList then 2 else 1)),
         ("_cmd".toList, PyVal.str command)] command data)
    | _ => Except.error PyErr.valueError
  | _ => Except.error PyErr.valueError

/-- String-level entry point of the `siglentSDG2000X` decoder. -/
def sdg2000xParseResponseToDict (resp : String) : Except PyErr ScpiDict :=
  sdg2000xParseRespList resp.toList

theorem pySplit_ne_nil (sep : Char) (l : List Char) : pySplit sep l ≠ [] := by
  cases l with
  | nil => simp [pySplit]
  | cons c cs =>
    simp only [pySplit]
    split
    · simp
    · cases pySplit sep cs <;> simp

theorem pySplit_no_sep (sep : Char) (l : List Char) (h : sep ∉ l) :
    pySplit sep l = [l] := by
  induction l with
  | nil => rfl
  | cons c cs ih =>
    have hc : ¬ c = sep := fun hc => h (hc ▸ List.mem_cons_self c cs)
    have hcs : sep ∉ cs := fun hm => h (List.mem_cons_of_mem c hm)
    simp only [pySplit, if_neg hc, ih hcs]

theorem pySplit_append (sep : Char) (a b : List Char) (h : sep ∉ a) :
    pySplit sep (a ++ sep :: b) = a :: pySplit sep b := by
  induction a with
  | nil => simp [pySplit]
  | cons c a ih =>
    have hc : ¬ c = sep := fun hc => h (hc ▸ List.mem_cons_self c a)
    have ha : sep ∉ a := fun hm => h (List.mem_cons_of_mem c hm)
    rw [List.cons_append]
    simp only [pySplit, if_neg hc]
    rw [ih ha]

theorem pySplitMax_no_sep (sep : Char) (n : Nat) (l : List Char) (h : sep ∉ l) :
    pySplitMax sep n l = [l] := by
  induction l generalizing n with
  | nil => cases n <;> rfl
  | cons c cs ih =>
    cases n with
    | zero => rfl
    | succ m =>
      have hc : ¬ c = sep := fun hc => h (hc ▸ List.mem_cons_self c cs)
      have hcs : sep ∉ cs := fun hm => h (List.mem_cons_of_mem c hm)
      simp only [pySplitMax, if_neg hc]
      rw [ih (m + 1) hcs]

theorem pySplitMax_append (sep : Char) (n : Nat) (a b : List Char) (h : sep ∉ a) :
    pySplitMax sep (n + 1) (a ++ sep :: b) = a :: pySplitMax sep n b := by
  induction a with
  | nil => simp [pySplitMax]
  | cons c a ih =>
    have hc : ¬ c = sep := fun hc => h (hc ▸ List.mem_cons_self c a)
    have ha : sep ∉ a := fun hm => h (List.mem_cons_of_mem c hm)
    rw [List.cons_append]
    simp only [pySplitMax, if_neg hc]
    rw [ih ha]

theorem pySplitMax_two_pieces (a b : List Char) (ha : ' ' ∉ a) (hb : ' ' ∉ b) :
    pySplitMax ' ' 2 (a ++ ' ' :: b) = [a, b] := by
  rw [show (2 : Nat) = 1 + 1 from rfl, pySplitMax_append ' ' 1 a b ha,
      pySplitMax_no_sep ' ' 1 b hb]

theorem dictGet_dictInsert (d : ScpiDict) (k k2 : List Char) (v : PyVal) :
    dictGet (dictInsert d k v) k2 = if k = k2 then some v else dictGet d k2 := by
  induction d with
  | nil => simp [dictInsert, dictGet]
  | cons p rest ih =>
    obtain ⟨k1, v1⟩ := p
    by_cases h1 : k1 = k
    · subst h1
      simp only [dictInsert, if_pos rfl, dictGet]
      by_cases h2 : k1 = k2 <;> simp [h2]
    · simp only [dictInsert, if_neg h1, dictGet, ih]
      by_cases h2 : k = k2
      · subst h2
        simp [if_neg h1]
      · simp [h2]

theorem lookupLast_eq_none (ps : List (List Char × List Char)) (k : List Char)
    (h : k ∉ ps.map Prod.fst) : lookupLast ps k = none := by
  induction ps with
  | nil => rfl
  | cons p rest ih =>
    have h1 : ¬ p.1 = k := fun he => h (by simp [he.symm])
    have h2 : k ∉ rest.map Prod.fst := fun hm => h (by simp [List.mem_map] at hm ⊢; right; exact hm)
    simp only [lookupLast, ih h2, if_neg h1]

theorem dictGet_foldl_insert (ps : List (List Char × List Char)) (init : ScpiDict)
    (k : List Char) :
    dictGet (ps.foldl (fun d p => dictInsert d p.1 (PyVal.str p.2)) init) k
      = match lookupLast ps k with
        | some v => some (PyVal.str v)
        | none => dictGet init k := by
  induction ps generalizing init with
  | nil => rfl
  | cons p rest ih =>
    simp only [List.foldl_cons, ih, lookupLast]
    cases h : lookupLast rest k with
    | some v => rfl
    | none =>
      simp only [dictGet_dictInsert]
      by_cases hp : p.1 = k
      · simp [hp]
      · simp [hp]

/-- A value held in the driver's attribute storage: Python floats are `ℚ`,
plus strings, booleans and `None`. -/
inductive DVal
  | num (q : ℚ)
  | str (s : String)
  | bool (b : Bool)
  | pyNone
  deriving DecidableEq

/-- Numeric content of a stored value (the Python code passes stored floats
straight back into setters; other cases do not occur on the verified paths). -/
def valNum : DVal → ℚ
  | DVal.num q => q
  | _ => 0

/-- String content of a stored value. -/
def valStr : DVal → String
  | DVal.str s => s
  | _ => ""

/-- Abstraction of Python `str()` on a float, used by `"{} {}".format(...)`
when building a command; the theorems never depend on the digits chosen. -/
def ratToStr (q : ℚ) : String := toString q

/-- Abstraction of Python `"{}".format(value)` on a stored value. -/
def valToStr : DVal → String
  | DVal.num q => ratToStr q
  | DVal.str s => s
  | DVal.bool b => if b then "True" else "False"
  | DVal.pyNone => "None"

/-- The string content of a decoded dictionary entry, as handed to a
`cast_cache` function (payload values are always strings; `_CHAN` is an int). -/
def pvToStr : PyVal → String
  | PyVal.str l => String.mk l
  | PyVal.int n => toString n

/-- The state of one `siglentFgenBase` driver instance together with its
transport.  `ask` is the device's reply function (the external transport);
`askLog` and `writeLog` record every `self._ask(...)` / `self._write(...)`
call.  `props` models the dynamic attribute dictionary `self.__dict__`,
keyed by the cache tag (attribute name without the leading underscore) and
the 0-based channel index, with `-1` for channel-independent attributes;
`cacheValid` models the IVI cache-validity bookkeeping for the same keys. -/
structure DriverState where
  ask : String → String
  driver_operation_simulate : Bool
  cacheValid : String → Int → Bool
  props : String → Int → DVal
  askLog : List String
  writeLog : List String

/-- The driver computation monad: Python methods mutating `self` and possibly
raising.  A raise keeps the state reached so far (side effects made before an
exception stay visible, as in Python). -/
def DM (α : Type) : Type := DriverState → Except PyErr α × DriverState

def DM.pure {α : Type} (a : α) : DM α := fun s => (Except.ok a, s)

def DM.bind {α β : Type} (x : DM α) (f : α → DM β) : DM β := fun s =>
  match x s with
  | (Except.ok a, s1) => f a s1
  | (Except.error e, s1) => (Except.error e, s1)

instance : Monad DM where
  pure := DM.pure
  bind := DM.bind

theorem DM.bind_def {α β : Type} (x : DM α) (f : α → DM β) :
    (x >>= f) = DM.bind x f := rfl

theorem DM.pure_def {α : Type} (a : α) : (Pure.pure a : DM α) = DM.pure a := rfl

/-- `raise e`. -/
def mThrow {α : Type} (e : PyErr) : DM α := fun s => (Except.error e, s)

/-- `self._write(cmd)`: appends to the write log.  (The state of the modelled
device is irrelevant for writes; replies come only from `ask`.) -/
def mWrite (cmd : String) : DM Unit := fun s =>
  (Except.ok (), { s with writeLog := s.writeLog ++ [cmd] })

/-- Embeds `siglentFgenBase._get_property_value_by_tag`: reads
`self.__dict__['_' + tag]`, at a channel index or `-1` for scalars. -/
def getProp (tag : String) (index : Int) : DM DVal := fun s =>
  (Except.ok (s.props tag index), s)

/-- Embeds `siglentFgenBase._set_property_value_by_tag`: writes
`self.__dict__['_' + tag]`, at a channel index or `-1` for scalars. -/
def setProp (tag : String) (value : DVal) (index : Int) : DM Unit := fun s =>
  (Except.ok (),
   { s with props := fun t i => if t = tag ∧ i = index then value else s.props t i })

/-- Modelled from the spec: `ivi.Driver._get_cache_tag` of the IVI base
library is not under `src/`; per the driver docstrings the tag names the
attribute `self._<tag>`, a tag given with a leading underscore is normalized
by stripping it, and an omitted tag is inferred statically from the calling
function's name (each call site below passes that inferred tag explicitly). -/
def getCacheTag (tag : String) : String :=
  match tag.toList with
  | '_' :: rest => String.mk rest
  | _ => tag

/-- Modelled from the spec: `ivi.Driver._set_cache_valid` of the IVI base
library is not under `src/`; it normalizes the tag like `_get_cache_tag` and
records validity of the (tag, index) cache slot. -/
def setCacheValid (valid : Bool) (tag : String) (index : Int) : DM Unit := fun s =>
  (Except.ok (),
   { s with cacheValid := fun t i =>
      if t = getCacheTag tag ∧ i = index then valid else s.cacheValid t i })

/-- Modelled from the spec: `ivi.get_index` of the IVI base library is not
under `src/`; on an integer channel identifier it returns that index, and the
cached accessors use `-1` when no channel is given. -/
def resolveIndex : Option Int → Int
  | some c => c
  | none => -1

/-- Embeds `siglentFgenBase._prepend_command_with_channel`: prepends `"Cn:"`
for a 0-based index (incremented), and leaves channel-independent commands
(index `None`/negative) unchanged. -/
def prependCommandWithChannel (command : String) (index : Int) : String :=
  if index < 0 then command
  else "C" ++ toString (index + 1) ++ ":" ++ command

/-- Embeds `siglentFgenBase._get_scpi_option_cached`.  On a valid cache slot
(or while simulating) it returns the stored property without any transport
interaction; otherwise it issues one `"<channel-prefixed command>?"` query,
decodes the reply, fails with `UnexpectedResponse` if the option key is
absent, applies `cast_cache` (modelled as fallible, since Python casts can
raise), stores the result and marks the slot valid. -/
def getScpiOptionCached (command : String) (option : Option String)
    (channel : Option Int) (tag : String)
    (castCache : String → Except PyErr DVal) : DM DVal := fun s =>
  let tagN := getCacheTag tag
  let index := resolveIndex channel
  if s.driver_operation_simulate = false ∧ s.cacheValid tagN index = false then
    let opt := option.getD command
    let q := prependCommandWithChannel command index ++ "?"
    let s1 := { s with askLog := s.askLog ++ [q] }
    match parseScpiRespList (s.ask q).toList with
    | Except.error e => (Except.error e, s1)
    | Except.ok dct =>
      match dictGet dct opt.toList with
      | none => (Except.error PyErr.unexpectedResponse, s1)
      | some pv =>
        match castCache (pvToStr pv) with
        | Except.error e => (Except.error e, s1)
        | Except.ok value =>
          (Except.ok value,
           { s1 with
             props := fun t i =>
               if t = tagN ∧ i = index then value else s1.props t i,
             cacheValid := fun t i =>
               if t = tagN ∧ i = index then true else s1.cacheValid t i })
  else
    (Except.ok (s.props tagN index), s)

/-- Embeds `siglentFgenBase._set_scpi_option_cached`: always builds and writes
`"<channel-prefixed command> <option>, <cast_option(value)>"` (without the
option part when `option` is absent), then stores the logical value and
marks the (tag, index) slot valid, with no read-back. -/
def setScpiOptionCached (value : DVal) (command : String) (option : Option String)
    (channel : Option Int) (tag : String) (castOption : DVal → String) : DM Unit :=
  fun s =>
  let tagN := getCacheTag tag
  let index := resolveIndex channel
  let cwc := prependCommandWithChannel command index
  let cmd := match option with
    | none => cwc ++ " " ++ castOption value
    | some o => cwc ++ " " ++ o ++ ", " ++ castOption value
  let s1 := { s with writeLog := s.writeLog ++ [cmd] }
  (Except.ok (),
   { s1 with
     props := fun t i => if t = tagN ∧ i = index then value else s1.props t i,
     cacheValid := fun t i => if t = tagN ∧ i = index then true else s1.cacheValid t i })

/-- Embeds `siglentFgenBase._strip_units`: removes `[a-zA-Z ]` characters. -/
def stripUnits (s : String) : String :=
  String.mk (s.toList.filter (fun c => ¬ (c.isAlpha ∨ c = ' ')))

/-- Digits of a decimal numeral folded into a `Nat` (non-digits contribute
their `0`-based digit value only via `Char.toNat`; the verified paths only
apply this to digit strings). -/
def digitsToNat (l : List Char) : Nat :=
  l.foldl (fun acc c => acc * 10 + (c.toNat - 48)) 0

/-- Python `float()` on the decimal numerals produced by the device
(optional sign, integer part, optional fractional part). -/
def parsePyFloat (s : String) : ℚ :=
  let l := s.toList
  let neg : Bool := match l with
    | '-' :: _ => true
    | _ => false
  let l2 : List Char := match l with
    | '-' :: rest => rest
    | _ => l
  let q : ℚ := match pySplit '.' l2 with
    | [ip] => (digitsToNat ip : ℚ)
    | [ip, fp] => (digitsToNat ip : ℚ) + (digitsToNat fp : ℚ) / ((10 : ℚ) ^ fp.length)
    | _ => 0
  if neg then -q else q

/-- The `cast_cache` used by the float-valued getters:
`lambda v: float(siglentFgenBase._strip_units(v))`. -/
def floatCast (v : String) : Except PyErr DVal :=
  Except.ok (DVal.num (parsePyFloat (stripUnits v)))

/-- The `cast_cache` of `_get_output_mode`:
`lambda t: 'arbitrary' if (t == 'ARB') else 'function'`. -/
def modeCast (t : String) : Except PyErr DVal :=
  Except.ok (DVal.str (if t = "ARB" then "arbitrary" else "function"))

/-- The module-level `StandardWaveformMapping` dictionary of
`siglentFgenBase.py` as a partial lookup (`none` models a `KeyError`). -/
def StandardWaveformMapping (k : String) : Option String :=
  if k = "sine" then some "SINE"
  else if k = "square" then some "PULSE"
  else if k = "triangle" then some "RAMP"
  else if k = "dc" then some "DC"
  else none

/-- Reverse lookup in `StandardWaveformMapping`, as a fallible cast: the
Python `[k for k, v in ... if v == wf][0]` raises `IndexError` when absent. -/
def inverseWaveformCast (wf : String) : Except PyErr DVal :=
  if wf = "SINE" then Except.ok (DVal.str "sine")
  else if wf = "PULSE" then Except.ok (DVal.str "square")
  else if wf = "RAMP" then Except.ok (DVal.str "triangle")
  else if wf = "DC" then Except.ok (DVal.str "dc")
  else Except.error PyErr.indexError

/-- Embeds `siglentFgenBase._get_output_operation_mode` (a direct list read,
no device interaction). -/
def getOutputOperationMode (index : Int) : DM DVal :=
  getProp "output_operation_mode" index

/-- Embeds `siglentFgenBase._get_output_mode`: cached `BSWV?` query on the
`WVTP` option, tag inferred from the method name as `output_mode`. -/
def getOutputMode (index : Int) : DM DVal :=
  getScpiOptionCached "BSWV" (some "WVTP") (some index) "output_mode" modeCast

/-- Embeds `siglentFgenBase._is_in_function_mode`. -/
def isInFunctionMode (index : Int) : DM Bool := do
  let m ← getOutputMode index
  DM.pure (decide (m = DVal.str "function"))

/-- Embeds `siglentFgenBase._is_in_arbitrary_mode`. -/
def isInArbitraryMode (index : Int) : DM Bool := do
  let m ← getOutputMode index
  DM.pure (decide (m = DVal.str "arbitrary"))

/-- Embeds `siglentFgenBase._get_output_common_waveform_amplitude`; `tag` is
the caller-derived cache tag (`_get_cache_tag(skip=2)`). -/
def getOutputCommonWaveformAmplitude (index : Int) (tag : String) : DM DVal :=
  getScpiOptionCached "BSWV" (some "AMP") (some index) tag floatCast

/-- Embeds `siglentFgenBase._set_output_common_waveform_amplitude`:
validates `value > 0` before any device interaction. -/
def setOutputCommonWaveformAmplitude (index : Int) (value : ℚ) (tag : String) :
    DM Unit := do
  if value ≤ 0 then mThrow PyErr.invalidOptionValue
  else setScpiOptionCached (DVal.num value) "BSWV" (some "AMP") (some index) tag valToStr

/-- Embeds `siglentFgenBase._get_output_common_waveform_dc_offset`. -/
def getOutputCommonWaveformDcOffset (index : Int) (tag : String) : DM DVal :=
  getScpiOptionCached "BSWV" (some "OFST") (some index) tag floatCast

/-- Embeds `siglentFgenBase._set_output_common_waveform_dc_offset`
(no range validation, only the float conversion). -/
def setOutputCommonWaveformDcOffset (index : Int) (value : ℚ) (tag : String) :
    DM Unit :=
  setScpiOptionCached (DVal.num value) "BSWV" (some "OFST") (some index) tag valToStr

/-- Embeds `siglentFgenBase._get_output_common_waveform_start_phase`. -/
def getOutputCommonWaveformStartPhase (index : Int) (tag : String) : DM DVal :=
  getScpiOptionCached "BSWV" (some "PHSE") (some index) tag floatCast

/-- Embeds `siglentFgenBase._set_output_common_waveform_start_phase`:
validates `0 <= value <= 360` before any device interaction. -/
def setOutputCommonWaveformStartPhase (index : Int) (value : ℚ) (tag : String) :
    DM Unit := do
  if value < 0 ∨ 360 < value then mThrow PyErr.invalidOptionValue
  else setScpiOptionCached (DVal.num value) "BSWV" (some "PHSE") (some index) tag valToStr

/-- Embeds `siglentFgenBase._get_output_common_waveform_frequency`. -/
def getOutputCommonWaveformFrequency (index : Int) (tag : String) : DM DVal :=
  getScpiOptionCached "BSWV" (some "FRQ") (some index) tag floatCast

/-- Embeds `siglentFgenBase._set_output_common_waveform_frequency`:
validates `value > 0` before any device interaction. -/
def setOutputCommonWaveformFrequency (index : Int) (value : ℚ) (tag : String) :
    DM Unit := do
  if value ≤ 0 then mThrow PyErr.invalidOptionValue
  else setScpiOptionCached (DVal.num value) "BSWV" (some "FRQ") (some index) tag valToStr

/-- Embeds `siglentFgenBase._get_output_standard_waveform_amplitude`: shadow
read when not in function mode, cached device read otherwise. -/
def getOutputStandardWaveformAmplitude (index : Int) : DM DVal := do
  let inFunc ← isInFunctionMode index
  if inFunc = false then getProp "output_standard_waveform_amplitude" index
  else getOutputCommonWaveformAmplitude index "output_standard_waveform_amplitude"

/-- Embeds `siglentFgenBase._set_output_standard_waveform_amplitude`. -/
def setOutputStandardWaveformAmplitude (index : Int) (value : ℚ) : DM Unit := do
  let inFunc ← isInFunctionMode index
  if inFunc = false then
    setProp "output_standard_waveform_amplitude" (DVal.num value) index
  else setOutputCommonWaveformAmplitude index value "output_standard_waveform_amplitude"

/-- Embeds `siglentFgenBase._get_output_standard_waveform_dc_offset`. -/
def getOutputStandardWaveformDcOffset (index : Int) : DM DVal := do
  let inFunc ← isInFunctionMode index
  if inFunc = false then getProp "output_standard_waveform_dc_offset" index
  else getOutputCommonWaveformDcOffset index "output_standard_waveform_dc_offset"

/-- Embeds `siglentFgenBase._set_output_standard_waveform_dc_offset`.  The
shadow branch writes `self._output_common_waveform_dc_offset` (sic, source
line 682 names a never-initialized attribute; the dynamic-dictionary model
simply records it under that key). -/
def setOutputStandardWaveformDcOffset (index : Int) (value : ℚ) : DM Unit := do
  let inFunc ← isInFunctionMode index
  if inFunc = false then
    setProp "output_common_waveform_dc_offset" (DVal.num value) index
  else setOutputCommonWaveformDcOffset index value "output_standard_waveform_dc_offset"

/-- Embeds `siglentFgenBase._get_output_standard_waveform_duty_cycle_high`. -/
def getOutputStandardWaveformDutyCycleHigh (index : Int) : DM DVal := do
  let inFunc ← isInFunctionMode index
  if inFunc = false then getProp "output_standard_waveform_duty_cycle_high" index
  else getScpiOptionCached "BSWV" (some "DUTY") (some index)
         "output_standard_waveform_duty_cycle_high" floatCast

/-- Embeds `siglentFgenBase._set_output_standard_waveform_duty_cycle_high`:
raises `ivi.ValueNotSupportedException` for values outside `[0, 100]` before
resolving the mode and before any device interaction. -/
def setOutputStandardWaveformDutyCycleHigh (index : Int) (value : ℚ) : DM Unit := do
  if value < 0 ∨ 100 < value then mThrow PyErr.valueNotSupported
  else do
    let inFunc ← isInFunctionMode index
    if inFunc = false then
      setProp "output_standard_waveform_duty_cycle_high" (DVal.num value) index
    else setScpiOptionCached (DVal.num value) "BSWV" (some "DUTY") (some index)
           "output_standard_waveform_duty_cycle_high" valToStr

/-- Embeds `siglentFgenBase._get_output_standard_waveform_start_phase`. -/
def getOutputStandardWaveformStartPhase (index : Int) : DM DVal := do
  let inFunc ← isInFunctionMode index
  if inFunc = false then getProp "output_standard_waveform_start_phase" index
  else getOutputCommonWaveformStartPhase index "output_standard_waveform_start_phase"

/-- Embeds `siglentFgenBase._set_output_standard_waveform_start_phase`. -/
def setOutputStandardWaveformStartPhase (index : Int) (value : ℚ) : DM Unit := do
  let inFunc ← isInFunctionMode index
  if inFunc = false then
    setProp "output_standard_waveform_start_phase" (DVal.num value) index
  else setOutputCommonWaveformStartPhase index value "output_standard_waveform_start_phase"

/-- Embeds `siglentFgenBase._get_output_standard_waveform_frequency`. -/
def getOutputStandardWaveformFrequency (index : Int) : DM DVal := do
  let inFunc ← isInFunctionMode index
  if inFunc = false then getProp "output_standard_waveform_frequency" index
  else getOutputCommonWaveformFrequency index "output_standard_waveform_frequency"

/-- Embeds `siglentFgenBase._set_output_standard_waveform_frequency`. -/
def setOutputStandardWaveformFrequency (index : Int) (value : ℚ) : DM Unit := do
  let inFunc ← isInFunctionMode index
  if inFunc = false then
    setProp "output_standard_waveform_frequency" (DVal.num value) index
  else setOutputCommonWaveformFrequency index value "output_standard_waveform_frequency"

/-- Embeds `siglentFgenBase._get_output_standard_waveform_waveform`. -/
def getOutputStandardWaveformWaveform (index : Int) : DM DVal := do
  let inFunc ← isInFunctionMode index
  if inFunc = false then getProp "output_standard_waveform_waveform" index
  else getScpiOptionCached "BSWV" (some "WVTP") (some index)
         "output_standard_waveform_waveform" inverseWaveformCast

/-- Embeds `siglentFgenBase._set_output_standard_waveform_waveform`; the
`StandardWaveformMapping[value]` lookup of the `cast_option` lambda is
resolved before the write (a missing key raises `KeyError` and nothing is
written, as in the source). -/
def setOutputStandardWaveformWaveform (index : Int) (value : String) : DM Unit := do
  let inFunc ← isInFunctionMode index
  if inFunc = false then
    setProp "output_standard_waveform_waveform" (DVal.str value) index
  else
    match StandardWaveformMapping value with
    | none => mThrow PyErr.keyError
    | some code =>
      setScpiOptionCached (DVal.str value) "BSWV" (some "WVTP") (some index)
        "output_standard_waveform_waveform" (fun _ => code)

/-- Embeds `siglentFgenBase._get_output_arbitrary_gain`. -/
def getOutputArbitraryGain (index : Int) : DM DVal := do
  let inArb ← isInArbitraryMode index
  if inArb = false then getProp "output_arbitrary_gain" index
  else getOutputCommonWaveformAmplitude index "output_arbitrary_gain"

/-- Embeds `siglentFgenBase._set_output_arbitrary_gain`. -/
def setOutputArbitraryGain (index : Int) (value : ℚ) : DM Unit := do
  let inArb ← isInArbitraryMode index
  if inArb = false then setProp "output_arbitrary_gain" (DVal.num value) index
  else setOutputCommonWaveformAmplitude index value "output_arbitrary_gain"

/-- Embeds `siglentFgenBase._get_output_arbitrary_offset`. -/
def getOutputArbitraryOffset (index : Int) : DM DVal := do
  let inArb ← isInArbitraryMode index
  if inArb = false then getProp "output_arbitrary_offset" index
  else getOutputCommonWaveformDcOffset index "output_arbitrary_offset"

/-- Embeds `siglentFgenBase._set_output_arbitrary_offset`. -/
def setOutputArbitraryOffset (index : Int) (value : ℚ) : DM Unit := do
  let inArb ← isInArbitraryMode index
  if inArb = false then setProp "output_arbitrary_offset" (DVal.num value) index
  else setOutputCommonWaveformDcOffset index value "output_arbitrary_offset"

/-- Embeds `siglentFgenBase._get_output_arbitrary_frequency`; the shadow
branch reads `self._output_arbitrary_waveform_frequency` (the storage of the
`fgen.ArbFrequency` capability class, which is not under `src/` and is
modelled from the spec as an existing per-channel attribute). -/
def getOutputArbitraryFrequency (index : Int) : DM DVal := do
  let inArb ← isInArbitraryMode index
  if inArb = false then getProp "output_arbitrary_waveform_frequency" index
  else getOutputCommonWaveformFrequency index "output_arbitrary_frequency"

/-- Modelled from the spec: `_set_output_arbitrary_sample_rate` is provided
by capability classes that are not under `src/`; per the spec the TrueArb
sample rate is written via the `SRATE` command's `VALUE` option and cached. -/
def setOutputArbitrarySampleRate (index : Int) (value : ℚ) : DM Unit :=
  setScpiOptionCached (DVal.num value) "SRATE" (some "VALUE") (some index)
    "output_arbitrary_sample_rate" valToStr

/-- Embeds `siglentFgenBase._set_output_arbitrary_frequency`: shadow write of
`self._output_arbitrary_waveform_frequency` when not in arbitrary mode,
device write otherwise; then records `'frequency'` as the last explicit
intent and invalidates both sample-rate cache slots of the channel (the
tags are passed with a leading underscore, which `_set_cache_valid`'s tag
normalization strips). -/
def setOutputArbitraryFrequency (index : Int) (value : ℚ) : DM Unit := do
  let inArb ← isInArbitraryMode index
  if inArb = false then
    setProp "output_arbitrary_waveform_frequency" (DVal.num value) index
  else setOutputCommonWaveformFrequency index value "output_arbitrary_frequency"
  setProp "output_arbitrary_frequency_mode" (DVal.str "frequency") index
  setCacheValid false "_output_arbitrary_sample_rate" index
  setCacheValid false "_arbitrary_sample_rate" index

/-- Modelled from the spec: `_get_output_arbitrary_waveform` is abstract in
`siglentFgenBase` and its concrete implementation is not under `src/`; per
the spec the arbitrary waveform selection is read by name via `C<n>:ARWV?`,
through the cached accessor. -/
def getOutputArbitraryWaveform (index : Int) : DM DVal :=
  getScpiOptionCached "ARWV" (some "NAME") (some index) "output_arbitrary_waveform"
    (fun v => Except.ok (DVal.str v))

/-- Embeds `siglentFgenBase._ensure_function_mode_parameters_cached`: in
function mode, reads (and thereby caches) every function-mode parameter. -/
def ensureFunctionModeParametersCached (index : Int) : DM Unit := do
  let inFunc ← isInFunctionMode index
  if inFunc = false then DM.pure ()
  else do
    let _ ← getOutputStandardWaveformAmplitude index
    let _ ← getOutputStandardWaveformDcOffset index
    let _ ← getOutputStandardWaveformDutyCycleHigh index
    let _ ← getOutputStandardWaveformFrequency index
    let _ ← getOutputStandardWaveformStartPhase index
    let _ ← getOutputStandardWaveformWaveform index
    DM.pure ()

/-- Embeds `siglentFgenBase._ensure_arbitrary_mode_parameters_cached`. -/
def ensureArbitraryModeParametersCached (index : Int) : DM Unit := do
  let inArb ← isInArbitraryMode index
  if inArb = false then DM.pure ()
  else do
    let _ ← getOutputArbitraryGain index
    let _ ← getOutputArbitraryOffset index
    let _ ← getOutputArbitraryWaveform index
    let _ ← getOutputArbitraryFrequency index
    DM.pure ()

/-- Embeds `siglentFgenBase._restore_function_mode_parameters_from_cache`:
replays every standard-waveform parameter from its shadow value, in source
order (waveform, amplitude, frequency, dc offset, start phase, duty). -/
def restoreFunctionModeParametersFromCache (index : Int) : DM Unit := do
  let wf ← getProp "output_standard_waveform_waveform" index
  setOutputStandardWaveformWaveform index (valStr wf)
  let amp ← getProp "output_standard_waveform_amplitude" index
  setOutputStandardWaveformAmplitude index (valNum amp)
  let frq ← getProp "output_standard_waveform_frequency" index
  setOutputStandardWaveformFrequency index (valNum frq)
  let ofst ← getProp "output_standard_waveform_dc_offset" index
  setOutputStandardWaveformDcOffset index (valNum ofst)
  let phse ← getProp "output_standard_waveform_start_phase" index
  setOutputStandardWaveformStartPhase index (valNum phse)
  let duty ← getProp "output_standard_waveform_duty_cycle_high" index
  setOutputStandardWaveformDutyCycleHigh index (valNum duty)

/-- Embeds `siglentFgenBase._restore_arbitrary_mode_parameters_from_cache`:
replays gain, offset and then frequency or sample rate according to the
`frequency_mode` flag. -/
def restoreArbitraryModeParametersFromCache (index : Int) : DM Unit := do
  let g ← getProp "output_arbitrary_gain" index
  setOutputArbitraryGain index (valNum g)
  let o ← getProp "output_arbitrary_offset" index
  setOutputArbitraryOffset index (valNum o)
  let m ← getProp "output_arbitrary_frequency_mode" index
  if m = DVal.str "frequency" then
    let f ← getProp "output_arbitrary_frequency" index
    setOutputArbitraryFrequency index (valNum f)
  else
    let r ← getProp "output_arbitrary_sample_rate" index
    setOutputArbitrarySampleRate index (valNum r)

/-- Embeds `siglentFgenBase._set_output_mode`.  Note the source reads
`_get_output_operation_mode` (`'continuous'`/`'burst'`) into `old_value`,
so the `old_value == 'function'` comparison is made against the operation
mode, exactly as in the source. -/
def setOutputMode (index : Int) (value : String) : DM Unit := do
  let oldValue ← getOutputOperationMode index
  if value ≠ "function" ∧ value ≠ "arbitrary" then mThrow PyErr.valueNotSupported
  else do
    if oldValue = DVal.str "function" then ensureFunctionModeParametersCached index
    else ensureArbitraryModeParametersCached index
    let wf ← getProp "output_standard_waveform_waveform" index
    match StandardWaveformMapping (valStr wf) with
    | none => mThrow PyErr.keyError
    | some stdWave =>
      setScpiOptionCached (DVal.str value) "BSWV" (some "WVTP") (some index)
        "output_mode" (fun t => if t = DVal.str "arbitrary" then "ARB" else stdWave)
      if value = "function" then restoreFunctionModeParametersFromCache index
      else restoreArbitraryModeParametersFromCache index

/-- Embeds `siglentFgenBase._update_burst_config`: `BTWV STATE, OFF` in
continuous mode; in burst mode one `STATE, ON` write followed by the trigger
commands, where an internal trigger writes `BTWV TRSR,INT` and then
`BTWV PRD,{p}S` with `p = 1.0` when the stored internal trigger rate is `0`
and `p = 1.0 / rate` otherwise. -/
def updateBurstConfig (index : Int) : DM Unit := fun s =>
  let opMode := s.props "output_operation_mode" index
  if opMode = DVal.str "continuous" ∨ opMode = DVal.str "" then
    mWrite (prependCommandWithChannel "BTWV STATE, OFF" index) s
  else if opMode = DVal.str "burst" then
    let cmd := "BTWV STATE, ON, GATE_NCYC, NCYC, TIME, "
      ++ valToStr (s.props "output_burst_count" index)
    let s1 := { s with writeLog := s.writeLog ++ [prependCommandWithChannel cmd index] }
    let trig := s1.props "output_trigger_source" index
    if trig = DVal.str "external" then
      mWrite (prependCommandWithChannel "BTWV TRSR,EXT" index) s1
    else if trig = DVal.str "internal" then
      let rate := valNum (s1.props "internal_trigger_rate" (-1))
      let periods : ℚ := if rate = 0 then 1 else 1 / rate
      let s2 := { s1 with
        writeLog := s1.writeLog ++ [prependCommandWithChannel "BTWV TRSR,INT" index] }
      (Except.ok (), { s2 with
        writeLog := s2.writeLog
          ++ [prependCommandWithChannel ("BTWV PRD," ++ ratToStr periods ++ "S") index] })
    else if trig = DVal.str "software" then
      mWrite (prependCommandWithChannel "BTWV TRSR,MAN" index) s1
    else (Except.ok (), s1)
  else mThrow PyErr.valueNotSupported s

/-- Embeds `siglentSDG2000X._set_output_standard_waveform_duty_cycle_high`
(source lines 369-372): converts to float and stores the value, with no
range validation, no device interaction and no cache-validity update. -/
def sdg2000xSetDutyCycleHigh (index : Int) (value : ℚ) : DM Unit :=
  setProp "output_standard_waveform_duty_cycle_high" (DVal.num value) index

/-- The per-channel defaults seeded by `siglentFgenBase._init_outputs` for
channels 0 and 1 (`_output_count = 2`).  `output_burst_count` and
`internal_trigger_rate` are seeded by `fgen` capability classes that are not
under `src/` and are modelled from the spec with arbitrary defaults. -/
def initProps : String → Int → DVal := fun tag i =>
  if i = 0 ∨ i = 1 then
    if tag = "output_enabled" then DVal.bool false
    else if tag = "output_operation_mode" then DVal.str "continuous"
    else if tag = "output_impedance" then DVal.num 0
    else if tag = "output_standard_waveform_waveform" then DVal.str "sine"
    else if tag = "output_standard_waveform_amplitude" then DVal.num 2
    else if tag = "output_standard_waveform_dc_offset" then DVal.num 0
    else if tag = "output_standard_waveform_start_phase" then DVal.num 0
    else if tag = "output_standard_waveform_frequency" then DVal.num 1000
    else if tag = "output_standard_waveform_duty_cycle_high" then DVal.num 50
    else if tag = "output_arbitrary_gain" then DVal.num 2
    else if tag = "output_arbitrary_frequency" then DVal.num 1000
    else if tag = "output_arbitrary_offset" then DVal.num 0
    else if tag = "output_arbitrary_waveform" then DVal.pyNone
    else if tag = "output_arbitrary_sample_rate" then DVal.num 1000000
    else if tag = "output_arbitrary_frequency_mode" then DVal.str "frequency"
    else if tag = "output_trigger_source" then DVal.str "internal"
    else if tag = "output_burst_count" then DVal.num 1
    else DVal.pyNone
  else if tag = "internal_trigger_rate" ∧ i = -1 then DVal.num 1000
  else DVal.pyNone

/-- A freshly initialized driver (not simulating, every cache slot invalid,
no transport traffic yet) attached to the reply function `ask`. -/
def initState (ask : String → String) : DriverState :=
  { ask := ask
    driver_operation_simulate := false
    cacheValid := fun _ _ => false
    props := initProps
    askLog := []
    writeLog := [] }

/-- A well-behaved demo device: both channels answer `BSWV?` with a standard
(function-mode) waveform block and `ARWV?` with a selected waveform name. -/
def demoAsk : String → String := fun q =>
  if q = "C1:BSWV?" then "C1:BSWV WVTP,SINE,FRQ,1000HZ,AMP,4V,OFST,0V"
  else if q = "C2:BSWV?" then "C2:BSWV WVTP,SINE,FRQ,1000HZ,AMP,4V,OFST,0V"
  else if q = "C1:ARWV?" then "C1:ARWV INDEX,2,NAME,wave1"
  else if q = "C2:ARWV?" then "C2:ARWV INDEX,2,NAME,wave1"
  else ""

/-- Step one of the C1 scenario: in function mode, set frequency 1000 and
amplitude 2.0 on the given channel. -/
def c1FunctionSetup (i : Int) : DM Unit := do
  setOutputStandardWaveformFrequency i 1000
  setOutputStandardWaveformAmplitude i 2

/-- The full C1 scenario: set function-mode frequency and amplitude, switch
the channel to arbitrary mode, set gain 3.0, switch back to function mode
and read the standard-waveform frequency and amplitude back. -/
def c1ModeRoundTrip (i : Int) : DM (DVal × DVal) := do
  c1FunctionSetup i
  setOutputMode i "arbitrary"
  setOutputArbitraryGain i 3
  setOutputMode i "function"
  let f ← getOutputStandardWaveformFrequency i
  let a ← getOutputStandardWaveformAmplitude i
  DM.pure (f, a)

deriving instance DecidableEq for Except

theorem parseScpi_channel_header (tok cmd data : List Char)
    (htok1 : ' ' ∉ tok) (htok2 : ':' ∉ tok)
    (hcmd1 : ' ' ∉ cmd) (hcmd2 : ':' ∉ cmd) (hdata : ' ' ∉ data) :
    parseScpiRespList ((tok ++ ':' :: cmd) ++ ' ' :: data)
      = (if tok = "C1".toList then
          Except.ok (mkOptions [("_CHAN".toList, PyVal.int 1),
                                ("_CMD".toList, PyVal.str cmd)] cmd data)
        else if tok = "C2".toList then
          Except.ok (mkOptions [("_CHAN".toList, PyVal.int 2),
                                ("_CMD".toList, PyVal.str cmd)] cmd data)
        else Except.error PyErr.unexpectedResponse) := by
  have hhead : ' ' ∉ tok ++ ':' :: cmd := by
    intro hm
    rcases List.mem_append.mp hm with h | h
    · exact htok1 h
    · rcases List.mem_cons.mp h with h | h
      · exact absurd h (by decide)
      · exact hcmd1 h
  have hcolon : ':' ∈ tok ++ ':' :: cmd :=
    List.mem_append_right tok (List.mem_cons_self ':' cmd)
  have hsplit := pySplitMax_two_pieces (tok ++ ':' :: cmd) data hhead hdata
  have hcsplit : pySplit ':' (tok ++ ':' :: cmd) = [tok, cmd] := by
    rw [pySplit_append ':' tok cmd htok2, pySplit_no_sep ':' cmd hcmd2]
  simp only [parseScpiRespList, hsplit, hcsplit, hcolon, if_true]

theorem sdg2000xParse_channel_header (tok cmd data : List Char)
    (htok1 : ' ' ∉ tok) (htok2 : ':' ∉ tok)
    (hcmd1 : ' ' ∉ cmd) (hcmd2 : ':' ∉ cmd) (hdata : ' ' ∉ data) :
    sdg2000xParseRespList ((tok ++ ':' :: cmd) ++ ' ' :: data)
      = Except.ok (mkOptions
          [("_chan".toList, PyVal.int (if tok = "C2".toList then 2 else 1)),
           ("_cmd".toList, PyVal.str cmd)] cmd data) := by
  have hhead : ' ' ∉ tok ++ ':' :: cmd := by
    intro hm
    rcases List.mem_append.mp hm with h | h
    · exact htok1 h
    · rcases List.mem_cons.mp h with h | h
      · exact absurd h (by decide)
      · exact hcmd1 h
  have hsplit := pySplitMax_two_pieces (tok ++ ':' :: cmd) data hhead hdata
  have hcsplit : pySplit ':' (tok ++ ':' :: cmd) = [tok, cmd] := by
    rw [pySplit_append ':' tok cmd htok2, pySplit_no_sep ':' cmd hcmd2]
  simp only [sdg2000xParseRespList, hsplit, hcsplit]

/-- C5 (amended): in `siglentFgenBase._parse_scpi_response_to_dict` the
channel token `C1` maps to channel 1, `C2` to channel 2, and any other
channel token fails with `ProtocolError`
(`ivi.UnexpectedResponseException`); in particular decoding `"C3:OUTP ON"`
raises it.  The `siglentSDG2000X._parse_response_to_dict` revision, also
cited by the claim, instead maps `C2` to channel 2 and every other channel
token, `C3` included, to channel 1 without raising (see the
counterexample). -/
theorem c5_channel_token_mapping
    (tok cmd data : List Char)
    (htok1 : ' ' ∉ tok) (htok2 : ':' ∉ tok)
    (hcmd1 : ' ' ∉ cmd) (hcmd2 : ':' ∉ cmd) (hdata : ' ' ∉ data)
    (hkey : "_CHAN".toList ∉ (scpiPairs cmd data).map Prod.fst)
    (hkey2 : "_chan".toList ∉ (scpiPairs cmd data).map Prod.fst) :
    (∃ d1, parseScpiRespList (("C1".toList ++ ':' :: cmd) ++ ' ' :: data) = Except.ok d1
        ∧ dictGet d1 "_CHAN".toList = some (PyVal.int 1))
    ∧ (∃ d2, parseScpiRespList (("C2".toList ++ ':' :: cmd) ++ ' ' :: data) = Except.ok d2
        ∧ dictGet d2 "_CHAN".toList = some (PyVal.int 2))
    ∧ (tok ≠ "C1".toList → tok ≠ "C2".toList →
        parseScpiRespList ((tok ++ ':' :: cmd) ++ ' ' :: data)
          = Except.error PyErr.unexpectedResponse)
    ∧ parseScpiResponseToDict "C3:OUTP ON" = Except.error PyErr.unexpectedResponse
    ∧ (∃ d3, sdg2000xParseRespList ((tok ++ ':' :: cmd) ++ ' ' :: data) = Except.ok d3
        ∧ dictGet d3 "_chan".toList
            = some (PyVal.int (if tok = "C2".toList then 2 else 1))) := by
  have hlast : lookupLast (scpiPairs cmd data) [ '_', 'C', 'H', 'A', 'N' ] = none := by
    simpa using lookupLast_eq_none (scpiPairs cmd data) "_CHAN".toList hkey
  have hlast2 : lookupLast (scpiPairs cmd data) [ '_', 'c', 'h', 'a', 'n' ] = none := by
    simpa using lookupLast_eq_none (scpiPairs cmd data) "_chan".toList hkey2
  refine ⟨⟨mkOptions [("_CHAN".toList, PyVal.int 1),
                      ("_CMD".toList, PyVal.str cmd)] cmd data, ?_, ?_⟩,
          ⟨mkOptions [("_CHAN".toList, PyVal.int 2),
                      ("_CMD".toList, PyVal.str cmd)] cmd data, ?_, ?_⟩, ?_, ?_,
          ⟨mkOptions [("_chan".toList, PyVal.int (if tok = "C2".toList then 2 else 1)),
                      ("_cmd".toList, PyVal.str cmd)] cmd data, ?_, ?_⟩⟩
  · rw [parseScpi_channel_header "C1".toList cmd data (by decide) (by decide)
        hcmd1 hcmd2 hdata]
    simp
  · simp [mkOptions, dictGet_foldl_insert, hlast, dictGet]

  · rw [parseScpi_channel_header "C2".toList cmd data (by decide) (by decide)
        hcmd1 hcmd2 hdata]
    simp
  · simp [mkOptions, dictGet_foldl_insert, hlast, dictGet]

  · intro h1 h2
    rw [parseScpi_channel_header tok cmd data htok1 htok2 hcmd1 hcmd2 hdata,
        if_neg h1, if_neg h2]
  · decide
  · rw [sdg2000xParse_channel_header tok cmd data htok1 htok2 hcmd1 hcmd2 hdata]
  · simp [mkOptions, dictGet_foldl_insert, hlast2, dictGet]

theorem c5_witness :
    parseScpiRespList (("C5".toList ++ ':' :: "OUTP".toList) ++ ' ' :: "ON".toList)
      = Except.error PyErr.unexpectedResponse :=
  (c5_channel_token_mapping "C5".toList "OUTP".toList "ON".toList (by decide) (by decide)
    (by decide) (by decide) (by decide) (by decide) (by decide)).2.2.1
    (by decide) (by decide)

/-- C5 counterexample: the claim's cited
`siglentSDG2000X._parse_response_to_dict` maps the unknown channel token
`C3` to channel 1 and succeeds, instead of raising `ProtocolError`:
decoding `"C3:OUTP ON"` yields channel 1, command `OUTP`, options
`{"OUTP": "ON"}` with no error. -/
theorem c5_counterexample :
    sdg2000xParseResponseToDict "C3:OUTP ON"
      = Except.ok [("_chan".toList, PyVal.int 1),
                   ("_cmd".toList, PyVal.str "OUTP".toList),
                   ("OUTP".toList, PyVal.str "ON".toList)] := by decide

/-- C6: a reply whose comma-separated payload has an odd number of tokens
gets the command name prepended as an implicit first token, so the first
payload value is keyed by the command name; in particular `"OUTP ON"`
decodes to options `{"OUTP": "ON"}`. -/
theorem c6_odd_token_inference
    (cmd data : List Char)
    (hcmd1 : ' ' ∉ cmd) (hcmd2 : ':' ∉ cmd) (hdata : ' ' ∉ data)
    (hodd : (pySplit ',' data).length % 2 = 1)
    (hdup : cmd ∉ (pairUp ((pySplit ',' data).drop 1)).map Prod.fst) :
    scpiParts cmd data = cmd :: pySplit ',' data
    ∧ (∃ d, parseScpiRespList (cmd ++ ' ' :: data) = Except.ok d
        ∧ dictGet d cmd = some (PyVal.str ((pySplit ',' data).headD [])))
    ∧ parseScpiResponseToDict "OUTP ON"
        = Except.ok [("_CMD".toList, PyVal.str "OUTP".toList),
                     ("OUTP".toList, PyVal.str "ON".toList)] := by
  have hparts : scpiParts cmd data = cmd :: pySplit ',' data := by
    simp [scpiParts, hodd]
  refine ⟨hparts, ⟨mkOptions [("_CMD".toList, PyVal.str cmd)] cmd data, ?_, ?_⟩, by decide⟩
  · have hsplit := pySplitMax_two_pieces cmd data hcmd1 hdata
    simp only [parseScpiRespList, hsplit, if_neg hcmd2]
  · obtain ⟨p0, rest, hp⟩ : ∃ p0 rest, pySplit ',' data = p0 :: rest := by
      cases h : pySplit ',' data with
      | nil => exact absurd h (pySplit_ne_nil ',' data)
      | cons p0 rest => exact ⟨p0, rest, rfl⟩
    have hlast : lookupLast (scpiPairs cmd data) cmd = some p0 := by
      rw [scpiPairs, hparts, hp, pairUp]
      have hnone : lookupLast (pairUp rest) cmd = none := by
        apply lookupLast_eq_none
        have : (pySplit ',' data).drop 1 = rest := by rw [hp]; rfl
        simpa [this] using hdup
      simp [lookupLast, hnone]
    simp [mkOptions, dictGet_foldl_insert, hlast, hp]

theorem c6_witness :
    parseScpiResponseToDict "OUTP ON"
      = Except.ok [("_CMD".toList, PyVal.str "OUTP".toList),
                   ("OUTP".toList, PyVal.str "ON".toList)] :=
  (c6_odd_token_inference "OUTP".toList "ON".toList (by decide) (by decide) (by decide)
    (by decide) (by decide)).2.2

/-- C7: a well-formed channel-prefixed reply with an even payload pairs the
consecutive payload tokens as (key, value) in encounter order, the last
occurrence of a duplicate key winning; in particular
`"C1:BSWV AMP,1.5V,OFST,0V"` decodes to channel 1, command `BSWV`, options
`{"AMP": "1.5V", "OFST": "0V"}`. -/
theorem c7_even_pairing_last_wins
    (cmd data k : List Char)
    (hcmd1 : ' ' ∉ cmd) (hcmd2 : ':' ∉ cmd) (hdata : ' ' ∉ data)
    (heven : (pySplit ',' data).length % 2 = 0)
    (hk1 : k ≠ "_CHAN".toList) (hk2 : k ≠ "_CMD".toList) :
    (∃ d, parseScpiRespList (("C1".toList ++ ':' :: cmd) ++ ' ' :: data) = Except.ok d
        ∧ dictGet d k = Option.map PyVal.str (lookupLast (pairUp (pySplit ',' data)) k))
    ∧ parseScpiResponseToDict "C1:BSWV AMP,1.5V,OFST,0V"
        = Except.ok [("_CHAN".toList, PyVal.int 1),
                     ("_CMD".toList, PyVal.str "BSWV".toList),
                     ("AMP".toList, PyVal.str "1.5V".toList),
                     ("OFST".toList, PyVal.str "0V".toList)] := by
  refine ⟨⟨mkOptions [("_CHAN".toList, PyVal.int 1),
                      ("_CMD".toList, PyVal.str cmd)] cmd data, ?_, ?_⟩, by decide⟩
  · rw [parseScpi_channel_header "C1".toList cmd data (by decide) (by decide)
        hcmd1 hcmd2 hdata]
    simp
  · have hparts : scpiParts cmd data = pySplit ',' data := by
      simp [scpiParts, heven]
    have hinit : dictGet [("_CHAN".toList, PyVal.int 1),
                          ("_CMD".toList, PyVal.str cmd)] k = none := by
      simp only [dictGet, if_neg (fun h => hk1 (Eq.symm h)), if_neg (fun h => hk2 (Eq.symm h))]
    rw [mkOptions, dictGet_foldl_insert, scpiPairs, hparts]
    cases h : lookupLast (pairUp (pySplit ',' data)) k with
    | some v => rfl
    | none => simpa using hinit

theorem c7_witness :
    parseScpiResponseToDict "C1:BSWV AMP,1.5V,OFST,0V"
      = Except.ok [("_CHAN".toList, PyVal.int 1),
                   ("_CMD".toList, PyVal.str "BSWV".toList),
                   ("AMP".toList, PyVal.str "1.5V".toList),
                   ("OFST".toList, PyVal.str "0V".toList)] :=
  (c7_even_pairing_last_wins "BSWV".toList "AMP,1.5V,OFST,0V".toList "AMP".toList
    (by decide) (by decide) (by decide) (by decide) (by decide) (by decide)).2

/-- C8 counterexample: the claim says a line that cannot be split into header
and payload fails with `ProtocolError`; decoding `"OUTP"` (no space) in fact
fails with the tuple-unpacking `ValueError`, a different error. -/
theorem c8_counterexample :
    parseScpiResponseToDict "OUTP" = Except.error PyErr.valueError
    ∧ PyErr.valueError ≠ PyErr.unexpectedResponse := by decide

/-- C8 (amended): every input line containing no space fails with the
tuple-unpacking `ValueError` (not with `ProtocolError`, which the decoder
reserves for unknown channel tokens). -/
theorem c8_amended_unsplit_value_error (l : List Char) (h : ' ' ∉ l) :
    parseScpiRespList l = Except.error PyErr.valueError := by
  have hsplit := pySplitMax_no_sep ' ' 2 l h
  simp only [parseScpiRespList, hsplit]

theorem c8_witness :
    parseScpiRespList "OUTP".toList = Except.error PyErr.valueError :=
  c8_amended_unsplit_value_error "OUTP".toList (by decide)

theorem getCacheTag_output_mode : getCacheTag "output_mode" = "output_mode" := rfl

theorem getCacheTag_arb_freq :
    getCacheTag "output_arbitrary_frequency" = "output_arbitrary_frequency" := rfl

theorem getCacheTag_output_arb_srate :
    getCacheTag "_output_arbitrary_sample_rate" = "output_arbitrary_sample_rate" := rfl

theorem getCacheTag_arb_srate :
    getCacheTag "_arbitrary_sample_rate" = "arbitrary_sample_rate" := rfl

/-- C2: for a (tag, channel) slot of `_get_scpi_option_cached`: a valid slot
returns the stored value with no transport interaction (the state, including
both logs, is unchanged); an invalid slot (while not simulating) issues
exactly one `ask` of the channel-prefixed command followed by `?`, stores the
cast result, marks the slot valid, and a second get on the same slot then
returns the identical value with no further query. -/
theorem c2_cached_get_behavior
    (command : String) (option : Option String) (channel : Option Int)
    (tag : String) (cast : String → Except PyErr DVal)
    (s : DriverState) (d : ScpiDict) (pv : PyVal) (v : DVal)
    (hsim : s.driver_operation_simulate = false)
    (hparse : parseScpiRespList
        (s.ask (prependCommandWithChannel command (resolveIndex channel) ++ "?")).toList
        = Except.ok d)
    (hopt : dictGet d ((option.getD command).toList) = some pv)
    (hcast : cast (pvToStr pv) = Except.ok v) :
    (s.cacheValid (getCacheTag tag) (resolveIndex channel) = true →
      getScpiOptionCached command option channel tag cast s
        = (Except.ok (s.props (getCacheTag tag) (resolveIndex channel)), s))
    ∧ (s.cacheValid (getCacheTag tag) (resolveIndex channel) = false →
      ∃ s2, getScpiOptionCached command option channel tag cast s = (Except.ok v, s2)
        ∧ s2.askLog = s.askLog
            ++ [prependCommandWithChannel command (resolveIndex channel) ++ "?"]
        ∧ s2.writeLog = s.writeLog
        ∧ s2.cacheValid (getCacheTag tag) (resolveIndex channel) = true
        ∧ s2.props (getCacheTag tag) (resolveIndex channel) = v
        ∧ getScpiOptionCached command option channel tag cast s2 = (Except.ok v, s2)) := by
  constructor
  · intro hvalid
    simp [getScpiOptionCached, hvalid]
  · intro hvalid
    have hparse2 : parseScpiRespList
        (s.ask (prependCommandWithChannel command (resolveIndex channel) ++ "?")).data
        = Except.ok d := hparse
    have hopt2 : dictGet d ((option.getD command).data) = some pv := hopt
    refine ⟨(getScpiOptionCached command option channel tag cast s).2,
      ?_, ?_, ?_, ?_, ?_, ?_⟩ <;>
    simp [getScpiOptionCached, hsim, hvalid, hparse2, hopt2, hcast]

theorem c2_witness :
    getScpiOptionCached "BSWV" (some "WVTP") (some 0) "output_mode" modeCast
        { initState demoAsk with
          cacheValid := fun t i => decide (t = "output_mode" ∧ i = 0) }
      = (Except.ok ((initState demoAsk).props "output_mode" 0),
         { initState demoAsk with
           cacheValid := fun t i => decide (t = "output_mode" ∧ i = 0) }) :=
  (c2_cached_get_behavior "BSWV" (some "WVTP") (some 0) "output_mode" modeCast
    { initState demoAsk with
      cacheValid := fun t i => decide (t = "output_mode" ∧ i = 0) }
    [("_CHAN".toList, PyVal.int 1), ("_CMD".toList, PyVal.str "BSWV".toList),
     ("WVTP".toList, PyVal.str "SINE".toList), ("FRQ".toList, PyVal.str "1000HZ".toList),
     ("AMP".toList, PyVal.str "4V".toList), ("OFST".toList, PyVal.str "0V".toList)]
    (PyVal.str "SINE".toList) (DVal.str "function")
    (by decide) (by decide) (by decide) (by decide)).1 (by decide)

/-- C3: `_set_scpi_option_cached` always issues exactly one device write with
the text `"<channel-prefixed command> <option>, <device_cast(value)>"` (or
without the option part when `option` is absent), issues no query, stores
the logical (un-encoded) value in the (tag, index) slot and marks it valid;
an immediately following get on the same tag then returns that value with no
device round trip. -/
theorem c3_cached_set_behavior
    (value : DVal) (command : String) (option : Option String) (channel : Option Int)
    (tag : String) (castOption : DVal → String) (s : DriverState)
    (gcommand : String) (goption : Option String) (gcast : String → Except PyErr DVal) :
    ∃ s2, setScpiOptionCached value command option channel tag castOption s
        = (Except.ok (), s2)
      ∧ s2.writeLog = s.writeLog
          ++ [match option with
              | none => prependCommandWithChannel command (resolveIndex channel)
                  ++ " " ++ castOption value
              | some o => prependCommandWithChannel command (resolveIndex channel)
                  ++ " " ++ o ++ ", " ++ castOption value]
      ∧ s2.askLog = s.askLog
      ∧ s2.props (getCacheTag tag) (resolveIndex channel) = value
      ∧ s2.cacheValid (getCacheTag tag) (resolveIndex channel) = true
      ∧ getScpiOptionCached gcommand goption channel tag gcast s2
          = (Except.ok value, s2) := by
  refine ⟨(setScpiOptionCached value command option channel tag castOption s).2,
    ?_, ?_, ?_, ?_, ?_, ?_⟩ <;>
  cases option <;> simp [setScpiOptionCached, getScpiOptionCached]

/-- C4: setting the arbitrary-waveform frequency on a channel invalidates
that channel's cached sample-rate entries (via the underscore-normalized
tags) and records `'frequency'` in the channel's frequency-mode flag as the
last explicit user intent. -/
theorem c4_arb_frequency_invalidates_sample_rate
    (i : Int) (value : ℚ) (s : DriverState)
    (hmode : s.cacheValid "output_mode" i = true)
    (hpos : 0 < value) :
    ∃ s2, setOutputArbitraryFrequency i value s = (Except.ok (), s2)
      ∧ s2.cacheValid "output_arbitrary_sample_rate" i = false
      ∧ s2.cacheValid "arbitrary_sample_rate" i = false
      ∧ s2.props "output_arbitrary_frequency_mode" i = DVal.str "frequency" := by
  have hle : ¬ value ≤ 0 := not_le.mpr hpos
  refine ⟨(setOutputArbitraryFrequency i value s).2, ?_, ?_, ?_, ?_⟩ <;>
  · by_cases hm : s.props "output_mode" i = DVal.str "arbitrary" <;>
    simp [setOutputArbitraryFrequency, isInArbitraryMode, getOutputMode,
      getScpiOptionCached, setOutputCommonWaveformFrequency, setScpiOptionCached,
      setProp, setCacheValid, mThrow, DM.bind_def, DM.bind, DM.pure_def, DM.pure,
      resolveIndex, hmode, hm, hle, getCacheTag_output_mode, getCacheTag_arb_freq,
      getCacheTag_output_arb_srate, getCacheTag_arb_srate]

theorem c4_witness :
    ∃ s2, setOutputArbitraryFrequency 0 5
        { initState demoAsk with
          cacheValid := fun t i => decide (t = "output_mode" ∧ i = 0) }
        = (Except.ok (), s2)
      ∧ s2.cacheValid "output_arbitrary_sample_rate" 0 = false
      ∧ s2.cacheValid "arbitrary_sample_rate" 0 = false
      ∧ s2.props "output_arbitrary_frequency_mode" 0 = DVal.str "frequency" :=
  c4_arb_frequency_invalidates_sample_rate 0 5
    { initState demoAsk with
      cacheValid := fun t i => decide (t = "output_mode" ∧ i = 0) }
    (by decide) (by norm_num)

/-- C9 counterexample: setting duty cycle -1 through the
`siglentSDG2000X` revision's setter (also cited by the claim) succeeds and
stores -1 with no device interaction, instead of raising `InvalidArgument`. -/
theorem c9_counterexample :
    (sdg2000xSetDutyCycleHigh 0 (-1) (initState demoAsk)).1 = Except.ok ()
    ∧ (sdg2000xSetDutyCycleHigh 0 (-1) (initState demoAsk)).2.props
        "output_standard_waveform_duty_cycle_high" 0 = DVal.num (-1)
    ∧ (sdg2000xSetDutyCycleHigh 0 (-1) (initState demoAsk)).2.writeLog = []
    ∧ (sdg2000xSetDutyCycleHigh 0 (-1) (initState demoAsk)).2.askLog = [] := by
  decide

/-- C9 (amended): in `siglentFgenBase`, setting the standard-waveform duty
cycle strictly below 0 or strictly above 100 raises the code's validation
error (`ivi.ValueNotSupportedException`, the realization of the spec's
`InvalidArgument`) before any device interaction and with the driver state
unchanged, while exactly 0 and exactly 100 succeed; the `siglentSDG2000X`
revision's setter performs no such validation (see the counterexample). -/
theorem c9_amended_duty_validation
    (i : Int) (v : ℚ) (s : DriverState)
    (hmode : s.cacheValid "output_mode" i = true) :
    ((v < 0 ∨ 100 < v) →
      setOutputStandardWaveformDutyCycleHigh i v s
        = (Except.error PyErr.valueNotSupported, s))
    ∧ (setOutputStandardWaveformDutyCycleHigh i 0 s).1 = Except.ok ()
    ∧ (setOutputStandardWaveformDutyCycleHigh i 100 s).1 = Except.ok () := by
  refine ⟨?_, ?_, ?_⟩
  · intro hout
    simp [setOutputStandardWaveformDutyCycleHigh, hout, mThrow]
  · have h1 : ¬ ((0 : ℚ) < 0) := by norm_num
    have h2 : ¬ ((100 : ℚ) < 0) := by norm_num
    by_cases hm : s.props "output_mode" i = DVal.str "function" <;>
    simp [setOutputStandardWaveformDutyCycleHigh, isInFunctionMode, getOutputMode,
      getScpiOptionCached, setScpiOptionCached, setProp, mThrow, resolveIndex,
      DM.bind_def, DM.bind, DM.pure_def, DM.pure, hmode, hm, h1, h2,
      getCacheTag_output_mode]
  · have h1 : ¬ ((100 : ℚ) < 0) := by norm_num
    have h2 : ¬ ((100 : ℚ) < 100) := by norm_num
    by_cases hm : s.props "output_mode" i = DVal.str "function" <;>
    simp [setOutputStandardWaveformDutyCycleHigh, isInFunctionMode, getOutputMode,
      getScpiOptionCached, setScpiOptionCached, setProp, mThrow, resolveIndex,
      DM.bind_def, DM.bind, DM.pure_def, DM.pure, hmode, hm, h1, h2,
      getCacheTag_output_mode]

theorem c9_witness :
    setOutputStandardWaveformDutyCycleHigh 0 101
        { initState demoAsk with
          cacheValid := fun t i => decide (t = "output_mode" ∧ i = 0) }
      = (Except.error PyErr.valueNotSupported,
         { initState demoAsk with
           cacheValid := fun t i => decide (t = "output_mode" ∧ i = 0) }) :=
  (c9_amended_duty_validation 0 101
    { initState demoAsk with
      cacheValid := fun t i => decide (t = "output_mode" ∧ i = 0) }
    (by decide)).1 (by norm_num)

/-- C10: updating the burst configuration of a channel in burst mode with
internal trigger source never divides by zero: the internal trigger period
written in the `BTWV PRD` command is `1.0` second when the stored internal
trigger rate is `0`, and the reciprocal of the rate otherwise. -/
theorem c10_burst_internal_trigger_period
    (i : Int) (rate : ℚ) (s : DriverState)
    (hop : s.props "output_operation_mode" i = DVal.str "burst")
    (htrig : s.props "output_trigger_source" i = DVal.str "internal")
    (hrate : s.props "internal_trigger_rate" (-1) = DVal.num rate) :
    ∃ s2, updateBurstConfig i s = (Except.ok (), s2)
      ∧ s2.writeLog = s.writeLog
          ++ [prependCommandWithChannel ("BTWV STATE, ON, GATE_NCYC, NCYC, TIME, "
                ++ valToStr (s.props "output_burst_count" i)) i,
              prependCommandWithChannel "BTWV TRSR,INT" i,
              prependCommandWithChannel ("BTWV PRD,"
                ++ ratToStr (if rate = 0 then 1 else 1 / rate) ++ "S") i] := by
  refine ⟨(updateBurstConfig i s).2, ?_, ?_⟩ <;>
  simp [updateBurstConfig, mWrite, mThrow, hop, htrig, hrate, valNum]

def demoBurstState : DriverState :=
  { initState demoAsk with
    props := fun t i =>
      if t = "output_operation_mode" then DVal.str "burst"
      else if t = "internal_trigger_rate" then DVal.num 0
      else initProps t i }

theorem c10_witness :
    ∃ s2, updateBurstConfig 0 demoBurstState = (Except.ok (), s2)
      ∧ s2.writeLog = demoBurstState.writeLog
          ++ [prependCommandWithChannel ("BTWV STATE, ON, GATE_NCYC, NCYC, TIME, "
                ++ valToStr (demoBurstState.props "output_burst_count" 0)) 0,
              prependCommandWithChannel "BTWV TRSR,INT" 0,
              prependCommandWithChannel ("BTWV PRD,"
                ++ ratToStr (if (0 : ℚ) = 0 then 1 else 1 / 0) ++ "S") 0] :=
  c10_burst_internal_trigger_period 0 0 demoBurstState (by decide) (by decide) (by decide)

/-- C1: for each channel, after setting function-mode frequency 1000 and
amplitude 2.0, those parameters sit cached (valid, with the set values)
before switching away; and after switching the channel to arbitrary mode,
setting gain 3.0, and switching back to function mode, the standard-waveform
frequency and amplitude getters read back 1000 and 2.0, restored by the
mode-switch replay. -/
theorem c1_mode_switch_round_trip :
    ∀ i : Fin 2,
      (c1FunctionSetup (i : Int) (initState demoAsk)).2.cacheValid
          "output_standard_waveform_frequency" (i : Int) = true
      ∧ (c1FunctionSetup (i : Int) (initState demoAsk)).2.props
          "output_standard_waveform_frequency" (i : Int) = DVal.num 1000
      ∧ (c1FunctionSetup (i : Int) (initState demoAsk)).2.cacheValid
          "output_standard_waveform_amplitude" (i : Int) = true
      ∧ (c1FunctionSetup (i : Int) (initState demoAsk)).2.props
          "output_standard_waveform_amplitude" (i : Int) = DVal.num 2
      ∧ (c1ModeRoundTrip (i : Int) (initState demoAsk)).1
          = Except.ok (DVal.num 1000, DVal.num 2) := by
  decide
